import Mathlib

/-!
Shallow embedding of the `confirm` command-line tool (src/src/main.rs).

The program is a yes/no confirmation prompt: it renders a prompt with an
option box, reads input (a whole line or a single keystroke), classifies it
into `Answer.Yes`, `Answer.No` or `Answer.Retry`, and loops according to a
retry policy until a definitive answer is produced or the retry budget is
exhausted.

Modelling conventions:
* Rust `String`s are Lean `String`s; the Rust string primitives used by the
  program (`str::trim`, `to_ascii_lowercase`, `is_empty`, `u8::from_str`)
  are re-implemented here by structural recursion over `String.data` so
  that all definitions kernel-reduce.
* Terminal interaction is abstracted by a scripted list of `ReadEvent`s:
  each blocking read either succeeds with the buffer contents (`line`,
  covering both reader modes, a whole line or a one-character string) or
  fails with an I/O error message (`ioErr`).
* Messages printed with `eprintln!` are collected as a list of `Diag`
  values; `Diag.render` gives the exact text the program writes to stderr.
* `ask_loop` runs on a scripted event list and returns the result
  (`none` when the script is exhausted and the real program would block
  forever on the next read), the number of completed prompt/read cycles,
  and the emitted diagnostics.
-/

/-- ASCII lowercase of a character, as Rust's `char::to_ascii_lowercase`. -/
def asciiLowerChar (c : Char) : Char :=
  if 65 ≤ c.toNat ∧ c.toNat ≤ 90 then Char.ofNat (c.toNat + 32) else c

/-- ASCII lowercase of a string, as Rust's `str::to_ascii_lowercase`. -/
def strLower (s : String) : String :=
  ⟨s.data.map asciiLowerChar⟩

/-- Whitespace predicate used by trimming (ASCII whitespace characters). -/
def isWsChar (c : Char) : Bool :=
  decide (c = ' ' ∨ c = '\t' ∨ c = '\n' ∨ c = '\r' ∨ c = '\x0b' ∨ c = '\x0c')

/-- Strip leading and trailing whitespace from a character list. -/
def trimCharList (l : List Char) : List Char :=
  ((l.dropWhile isWsChar).reverse.dropWhile isWsChar).reverse

/-- Rust's `str::trim` (restricted to ASCII whitespace). -/
def strTrim (s : String) : String :=
  ⟨trimCharList s.data⟩

/-- The tri-state answer enum from the source (`enum Answer`). -/
inductive Answer
  | Yes
  | No
  | Retry
deriving DecidableEq, Repr

/-- Source `enum ReaderType`: how a single read is performed. -/
inductive ReaderType
  | SingleChar
  | NewlineBuffered
deriving DecidableEq, Repr

/-- Source `enum TryMode`: the retry policy.  In the source `Count` carries a
`NonZeroU8`; here it carries a `Nat`, with positivity established where the
value comes from `parse_retry_count_opt`. -/
inductive TryMode
  | Infinite
  | Count (n : Nat)
deriving DecidableEq, Repr

/-- Source `impl FromStr for Answer`: lowercase the input and match
`"yes" | "y"` to `Yes`, `"no" | "n"` to `No`, everything else to `Retry`.
The Rust implementation is infallible. -/
def answer_from_str (s : String) : Answer :=
  let low := strLower s
  if low = "yes" ∨ low = "y" then Answer.Yes
  else if low = "no" ∨ low = "n" then Answer.No
  else Answer.Retry

/-- Source `fn is_full_word`: the lowercased string is exactly `"yes"` or `"no"`. -/
def is_full_word (s : String) : Bool :=
  decide (strLower s = "yes" ∨ strLower s = "no")

/-- Source `fn parse_default_answer_opt`: reject strings that are neither a full
word nor the literal `"retry"`; otherwise delegate to `answer_from_str`.
`none` models the `Err` case (a startup configuration error). -/
def parse_default_answer_opt (s : String) : Option Answer :=
  if ¬ is_full_word s ∧ s ≠ "retry" then none
  else some (answer_from_str s)

/-- Rust's `u8::from_str`: an optional leading `'+'`, then one or more
decimal digits, value at most 255; anything else is a parse error. -/
def parseU8 (s : String) : Option Nat :=
  let cs := match s.data with
    | '+' :: rest => rest
    | cs => cs
  if cs = [] then none
  else if cs.all (fun c => decide (48 ≤ c.toNat ∧ c.toNat ≤ 57)) then
    let v := cs.foldl (fun a c => a * 10 + (c.toNat - 48)) 0
    if v ≤ 255 then some v else none
  else none

/-- Source `fn parse_retry_count_opt`: parse the argument as a `u8`; zero maps to
`Infinite`, a non-zero value `n` to `Count n`. -/
def parse_retry_count_opt (s : String) : Option TryMode :=
  match parseU8 s with
  | none => none
  | some count => if count = 0 then some TryMode.Infinite else some (TryMode.Count count)

/-- Source `struct Confirm`: the assembled configuration consumed by the loop. -/
structure Confirm where
  default_response : Answer
  prompt : String
  reader_type : ReaderType
  retry_mode : TryMode
  use_full_words : Bool
deriving DecidableEq, Repr

/-- Source `fn render_option_box`: the bracketed hint appended to the prompt. -/
def render_option_box (c : Confirm) : String :=
  match c.use_full_words, c.default_response with
  | true, Answer.Yes => "[YES/no]"
  | true, Answer.No => "[yes/NO]"
  | true, Answer.Retry => "[yes/no]"
  | false, Answer.Yes => "[Y/n]"
  | false, Answer.No => "[y/N]"
  | false, Answer.Retry => "[y/n]"

/-- Source `fn prepare_prompt`: clone the prompt, push a space, the option box and
`": "`.  String pushes are modelled by concatenation. -/
def prepare_prompt (c : Confirm) : String :=
  c.prompt ++ " " ++ render_option_box c ++ ": "

/-- One scripted interaction with the terminal: a successful read yielding
the raw buffer contents, or a failing read with an error message. -/
inductive ReadEvent
  | line (s : String)
  | ioErr (msg : String)
deriving DecidableEq, Repr

/-- A message the program writes to the error stream. -/
inductive Diag
  | readError (msg : String)
  | retryExceeded
deriving DecidableEq, Repr

/-- The exact text each diagnostic prints (the `eprintln!` format strings). -/
def Diag.render : Diag → String
  | Diag.readError m => "Error while reading user input: " ++ m
  | Diag.retryExceeded => "Retry count exceeded.  Aborting..."

/-- Source `fn try_read_value`: after a read, trim the buffer; empty input yields
the configured default; in full-words mode a non-full-word is an error
(`"Please type yes or no"`); otherwise classify with `answer_from_str`.
A failed read propagates its I/O error. -/
def try_read_value (c : Confirm) (ev : ReadEvent) : Except String Answer :=
  match ev with
  | ReadEvent.ioErr msg => Except.error msg
  | ReadEvent.line input_buf =>
    let response := strTrim input_buf
    if response = "" then Except.ok c.default_response
    else if c.use_full_words ∧ ¬ is_full_word response then
      Except.error "Please type yes or no"
    else Except.ok (answer_from_str response)

/-- Source `fn get_user_input`: on error, print a diagnostic to stderr and recover
with `Retry`.  Returns the answer together with the diagnostics emitted. -/
def get_user_input (c : Confirm) (ev : ReadEvent) : Answer × List Diag :=
  match try_read_value c ev with
  | Except.ok a => (a, [])
  | Except.error err => (Answer.Retry, [Diag.readError err])

/-- Outcome of a bounded run of `ask!` invocations. -/
inductive SeqOutcome
  | answered (b : Bool)
  | retriedAll (rest : List ReadEvent)
  | blocked
deriving DecidableEq, Repr

/-- Run up to `n` `ask!` invocations against the scripted events.
Returns the outcome, the number of completed prompt/read cycles, and the
diagnostics emitted: `answered b` when some read produced a definitive
answer, `retriedAll rest` when all `n` asks completed with `Retry`
(`rest` is the unconsumed script), `blocked` when the script ran out. -/
def askSeq (c : Confirm) : Nat → List ReadEvent → SeqOutcome × Nat × List Diag
  | 0, evs => (SeqOutcome.retriedAll evs, 0, [])
  | _ + 1, [] => (SeqOutcome.blocked, 0, [])
  | n + 1, ev :: rest =>
    match get_user_input c ev with
    | (Answer.Yes, errs) => (SeqOutcome.answered true, 1, errs)
    | (Answer.No, errs) => (SeqOutcome.answered false, 1, errs)
    | (Answer.Retry, errs) =>
      let r := askSeq c n rest
      (r.1, r.2.1 + 1, errs ++ r.2.2)

/-- Source `fn ask_loop` on a scripted event list.  The loop always asks once,
then under `Infinite` keeps asking (here: until the script runs out, which
models blocking forever, result `none`), and under `Count x` asks at most
`x` more times, printing `Retry count exceeded.  Aborting...` and returning
`false` when every ask retried. -/
def ask_loop (c : Confirm) (evs : List ReadEvent) : Option Bool × Nat × List Diag :=
  match c.retry_mode with
  | TryMode.Infinite =>
    match askSeq c evs.length evs with
    | (SeqOutcome.answered b, used, errs) => (some b, used, errs)
    | (_, used, errs) => (none, used, errs)
  | TryMode.Count x =>
    match askSeq c (1 + x) evs with
    | (SeqOutcome.answered b, used, errs) => (some b, used, errs)
    | (SeqOutcome.retriedAll _, used, errs) =>
      (some false, used, errs ++ [Diag.retryExceeded])
    | (SeqOutcome.blocked, used, errs) => (none, used, errs)

/-- Source `struct MainOptions`: the parsed command-line flags. -/
structure MainOptions where
  full_words : Bool
  default : Answer
  no_enter : Bool
  ask_count : TryMode
  prompt : String
  always_yes : Bool
  always_no : Bool
deriving DecidableEq, Repr

/-- Source `fn into_confirm`: build the `Confirm` configuration from the flags. -/
def into_confirm (o : MainOptions) : Confirm :=
  { default_response := o.default
    prompt := o.prompt
    reader_type := if o.no_enter then ReaderType.SingleChar else ReaderType.NewlineBuffered
    retry_mode := o.ask_count
    use_full_words := o.full_words }

/-- Source `fn main` after argument parsing: `--yes` returns exit code 0 and
`--no` exit code 1 before any prompting; otherwise the exit code reflects
`ask_loop` (0 for `true`, 1 for `false`).  Returns the exit code (`none`
when the loop would block forever) and the number of prompts issued. -/
def run_main (o : MainOptions) (evs : List ReadEvent) : Option Nat × Nat :=
  if o.always_yes then (some 0, 0)
  else if o.always_no then (some 1, 0)
  else
    match ask_loop (into_confirm o) evs with
    | (some true, used, _) => (some 0, used)
    | (some false, used, _) => (some 1, used)
    | (none, used, _) => (none, used)

/-! ### Shared concrete values and helper lemmas -/

/-- A baseline configuration: non-strict, no default, `Bounded(3)`. -/
def cfgBase : Confirm :=
  { default_response := Answer.Retry
    prompt := "Continue?"
    reader_type := ReaderType.NewlineBuffered
    retry_mode := TryMode.Count 3
    use_full_words := false }

/-- A four-event script in which every read yields a retry. -/
def evsFour : List ReadEvent :=
  [ReadEvent.line "a", ReadEvent.line "b", ReadEvent.line "c", ReadEvent.line "d"]

theorem get_user_input_no_exceeded (c : Confirm) (ev : ReadEvent) :
    Diag.retryExceeded ∉ (get_user_input c ev).2 := by
  unfold get_user_input
  cases try_read_value c ev <;> simp

theorem askSeq_no_exceeded (c : Confirm) :
    ∀ (fuel : Nat) (evs : List ReadEvent), Diag.retryExceeded ∉ (askSeq c fuel evs).2.2 := by
  intro fuel
  induction fuel with
  | zero => intro evs; simp [askSeq]
  | succ n ih =>
    intro evs
    cases evs with
    | nil => simp [askSeq]
    | cons ev rest =>
      have hev := get_user_input_no_exceeded c ev
      rcases hu : get_user_input c ev with ⟨a, errs0⟩
      rw [hu] at hev
      simp only [] at hev
      cases a <;> simp [askSeq, hu]
      · exact hev
      · exact hev
      · exact ⟨hev, ih rest⟩

theorem askSeq_retry_chain (c : Confirm) :
    ∀ (pre : List ReadEvent), (∀ ev ∈ pre, (get_user_input c ev).1 = Answer.Retry) →
    ∀ (fuel : Nat) (post : List ReadEvent),
    ∃ errs, askSeq c (pre.length + fuel) (pre ++ post) =
      ((askSeq c fuel post).1, (askSeq c fuel post).2.1 + pre.length,
        errs ++ (askSeq c fuel post).2.2) := by
  intro pre
  induction pre with
  | nil =>
    intro _ fuel post
    exact ⟨[], by simp⟩
  | cons ev pre ih =>
    intro h fuel post
    obtain ⟨errs1, hrec⟩ := ih (fun e he => h e (List.mem_cons_of_mem _ he)) fuel post
    have hev : (get_user_input c ev).1 = Answer.Retry := h ev (List.mem_cons_self _ _)
    rcases hu : get_user_input c ev with ⟨a, errs0⟩
    rw [hu] at hev
    simp only [] at hev
    subst hev
    refine ⟨errs0 ++ errs1, ?_⟩
    have hstep : (ev :: pre).length + fuel = (pre.length + fuel) + 1 := by
      simp [List.length_cons]; omega
    rw [hstep]
    simp only [List.cons_append, askSeq, hu, List.append_eq]
    rw [hrec]
    simp only [List.length_cons, List.append_assoc, Prod.mk.injEq]
    refine ⟨trivial, ?_, trivial⟩
    omega

theorem get_user_input_line_yes (c : Confirm) :
    get_user_input c (ReadEvent.line "yes") = (Answer.Yes, []) := by
  have h1 : strTrim "yes" = "yes" := by decide
  have h2 : is_full_word "yes" = true := by decide
  have h3 : answer_from_str "yes" = Answer.Yes := by decide
  simp [get_user_input, try_read_value, h1, h2, h3]

/-! ### Claim theorems -/

/-- Claim C6: a read failure (`IoError`) does not terminate the loop or the
process: `get_user_input` recovers it as `Retry` with the underlying error
message surfaced on the error stream (rendered as
`Error while reading user input: <msg>`), and one loop step on a failing
read consumes exactly one unit of retry budget and one prompt, continuing
with the rest of the script exactly as a `Retry` does. -/
theorem C6_io_error_recovery (c : Confirm) (m : String) (n : Nat) (rest : List ReadEvent) :
    get_user_input c (ReadEvent.ioErr m) = (Answer.Retry, [Diag.readError m]) ∧
    (Diag.readError m).render = "Error while reading user input: " ++ m ∧
    askSeq c (n + 1) (ReadEvent.ioErr m :: rest) =
      ((askSeq c n rest).1, (askSeq c n rest).2.1 + 1,
        Diag.readError m :: (askSeq c n rest).2.2) := by
  refine ⟨rfl, rfl, ?_⟩
  simp [askSeq, get_user_input, try_read_value]

/-- Claim C7: the rendered prompt is exactly the base text, a space, the
option box, then `": "`; the option box is `[YES/no]`/`[yes/NO]`/`[yes/no]`
in strict mode and `[Y/n]`/`[y/N]`/`[y/n]` otherwise, for default
`Yes`/`No`/no-default respectively; in particular base `"Continue?"` with
default `No`, non-strict, renders exactly `"Continue? [y/N]: "`. -/
theorem C7_prompt_rendering (c : Confirm) :
    prepare_prompt c = c.prompt ++ " " ++ render_option_box c ++ ": " ∧
    render_option_box { c with use_full_words := true, default_response := Answer.Yes } = "[YES/no]" ∧
    render_option_box { c with use_full_words := true, default_response := Answer.No } = "[yes/NO]" ∧
    render_option_box { c with use_full_words := true, default_response := Answer.Retry } = "[yes/no]" ∧
    render_option_box { c with use_full_words := false, default_response := Answer.Yes } = "[Y/n]" ∧
    render_option_box { c with use_full_words := false, default_response := Answer.No } = "[y/N]" ∧
    render_option_box { c with use_full_words := false, default_response := Answer.Retry } = "[y/n]" ∧
    prepare_prompt
      { c with prompt := "Continue?", use_full_words := false, default_response := Answer.No }
      = "Continue? [y/N]: " :=
  ⟨rfl, rfl, rfl, rfl, rfl, rfl, rfl, rfl⟩

/-- Claim C8 counterexample: `--default YES` is accepted although `"YES"`
is none of the three exact words `"yes"`, `"no"`, `"retry"`; the accepted
set is therefore not that three-element set. -/
theorem C8_counterexample :
    parse_default_answer_opt "YES" = some Answer.Yes ∧
    "YES" ≠ "yes" ∧ "YES" ≠ "no" ∧ "YES" ≠ "retry" := by decide

/-- Claim C8 (amended): `--default` accepts `"yes"` and `"no"` in any ASCII
case mixture (mapping to `Yes`/`No`) and the exact lowercase word
`"retry"` (mapping to `Retry`); every other string is a configuration
error. -/
theorem C8_default_parsing (s : String) :
    parse_default_answer_opt s =
      if strLower s = "yes" then some Answer.Yes
      else if strLower s = "no" then some Answer.No
      else if s = "retry" then some Answer.Retry
      else none := by
  by_cases hy : strLower s = "yes"
  · simp [parse_default_answer_opt, is_full_word, answer_from_str, hy]
  · by_cases hn : strLower s = "no"
    · simp [parse_default_answer_opt, is_full_word, answer_from_str, hy, hn]
    · by_cases hr : s = "retry"
      · subst hr
        decide
      · simp [parse_default_answer_opt, is_full_word, answer_from_str, hy, hn, hr]

/-- Claim C9 counterexample: `--ask-count 256` is a positive integer but is
rejected (the argument is parsed as a `u8`), so not every positive integer
maps to `Bounded(n)`. -/
theorem C9_counterexample :
    parse_retry_count_opt (Nat.repr 256) = none ∧ Nat.repr 256 = "256" := by decide

/-- Claim C9 (amended): the `--ask-count` argument is parsed as an unsigned
8-bit integer: `0` maps to `Unlimited` (`Infinite`), any `n` with
`1 ≤ n ≤ 255` maps to `Bounded(n)` (`Count n`), and both non-numeric
values and numeric values above 255 are configuration errors. -/
theorem C9_ask_count_parsing :
    (∀ n : Nat, n ≤ 255 → 1 ≤ n → parse_retry_count_opt (Nat.repr n) = some (TryMode.Count n)) ∧
    parse_retry_count_opt (Nat.repr 0) = some TryMode.Infinite ∧
    parse_retry_count_opt (Nat.repr 256) = none ∧
    parse_retry_count_opt "abc" = none := by
  refine ⟨?_, by decide, by decide, by decide⟩
  set_option maxRecDepth 4000 in decide

/-- Claim C9 witness: instantiating the amended parsing theorem at `n = 3`. -/
theorem C9_ask_count_parsing_witness :
    (3 : Nat) ≤ 255 ∧ (1 : Nat) ≤ 3 ∧
    parse_retry_count_opt (Nat.repr 3) = some (TryMode.Count 3) :=
  ⟨by decide, by decide, C9_ask_count_parsing.1 3 (by decide) (by decide)⟩

/-- Claim C10: `--yes` makes the process exit 0 and `--no` exit 1, both
without issuing any prompt, checked before the ask loop runs, with `--yes`
taking precedence when both are given. -/
theorem C10_bypass_flags (o : MainOptions) (evs : List ReadEvent) :
    run_main { o with always_yes := true } evs = (some 0, 0) ∧
    run_main { o with always_yes := false, always_no := true } evs = (some 1, 0) ∧
    run_main { o with always_yes := true, always_no := true } evs = (some 0, 0) :=
  ⟨rfl, rfl, rfl⟩

/-- Claim C5 counterexample: in non-strict mode the unrecognized input
`"maybe"` and the empty input with no configured default both trigger a
retry, yet neither produces any diagnostic on the error stream — so not
every retry-triggering condition is reported. -/
theorem C5_counterexample :
    (get_user_input cfgBase (ReadEvent.line "maybe")).1 = Answer.Retry ∧
    (get_user_input cfgBase (ReadEvent.line "maybe")).2 = [] ∧
    (get_user_input cfgBase (ReadEvent.line "")).1 = Answer.Retry ∧
    (get_user_input cfgBase (ReadEvent.line "")).2 = [] := by decide

/-- Claim C5 (amended): only strict-mode invalid input and I/O read
failures produce a diagnostic on the error stream (`Please type yes or no`
resp. the underlying error message); a non-strict line read — including
unrecognized input and empty input with no default — never produces one
and silently triggers a retry. -/
theorem C5_diagnostics (c : Confirm) (s m : String)
    (hne : strTrim s ≠ "") (hnf : is_full_word (strTrim s) = false) :
    (get_user_input { c with use_full_words := true } (ReadEvent.line s)).2
      = [Diag.readError "Please type yes or no"] ∧
    (get_user_input c (ReadEvent.ioErr m)).2 = [Diag.readError m] ∧
    ∀ t, (get_user_input { c with use_full_words := false } (ReadEvent.line t)).2 = [] := by
  refine ⟨?_, rfl, ?_⟩
  · simp [get_user_input, try_read_value, hne, hnf]
  · intro t
    by_cases ht : strTrim t = "" <;> simp [get_user_input, try_read_value, ht]

/-- Claim C5 witness: the amended diagnostics theorem instantiated at the
input `"maybe"` and the I/O error message `"boom"`. -/
theorem C5_diagnostics_witness :
    strTrim "maybe" ≠ "" ∧
    is_full_word (strTrim "maybe") = false ∧
    (get_user_input { cfgBase with use_full_words := true } (ReadEvent.line "maybe")).2
      = [Diag.readError "Please type yes or no"] ∧
    (get_user_input cfgBase (ReadEvent.ioErr "boom")).2 = [Diag.readError "boom"] ∧
    (get_user_input { cfgBase with use_full_words := false } (ReadEvent.line "maybe")).2 = [] :=
  ⟨by decide, by decide,
    (C5_diagnostics cfgBase "maybe" "boom" (by decide) (by decide)).1,
    (C5_diagnostics cfgBase "maybe" "boom" (by decide) (by decide)).2.1,
    (C5_diagnostics cfgBase "maybe" "boom" (by decide) (by decide)).2.2 "maybe"⟩

/-- Observable classification outcome of one non-empty read: a definitive
answer, a retry, or an invalid-input condition (the error case of
`try_read_value`). -/
inductive ClassOutcome
  | Yes
  | No
  | Retry
  | InvalidInput
deriving DecidableEq, Repr

/-- Collapse a `try_read_value` result to its observable classification. -/
def classOutcome : Except String Answer → ClassOutcome
  | Except.ok Answer.Yes => ClassOutcome.Yes
  | Except.ok Answer.No => ClassOutcome.No
  | Except.ok Answer.Retry => ClassOutcome.Retry
  | Except.error _ => ClassOutcome.InvalidInput

/-- Modelled from the spec: claim C1's classifier for a trimmed non-empty
input.  Non-strict: case-insensitive `"y"`/`"yes"` map to `Yes`,
`"n"`/`"no"` to `No`, anything else to `Retry`.  Strict: only the full
words `"yes"`/`"no"` (any case mixture) are accepted, everything else —
including `"y"`/`"n"` — is invalid input. -/
def classifierSpec (strict : Bool) (t : String) : ClassOutcome :=
  let low := strLower t
  if strict then
    if low = "yes" then ClassOutcome.Yes
    else if low = "no" then ClassOutcome.No
    else ClassOutcome.InvalidInput
  else
    if low = "y" ∨ low = "yes" then ClassOutcome.Yes
    else if low = "n" ∨ low = "no" then ClassOutcome.No
    else ClassOutcome.Retry

/-- Claim C1: for every input string with a non-empty trim, the code's
classification of a line read agrees with the spec's classifier: in
non-strict mode case-insensitive `"y"`/`"yes"` yield `Yes` and
`"n"`/`"no"` yield `No`; in strict mode single letters are invalid input
while full words in any case mixture are accepted; any other non-empty
string yields `Retry` (non-strict) or invalid input (strict). -/
theorem C1_classification (c : Confirm) (s : String) (h : strTrim s ≠ "") :
    classOutcome (try_read_value c (ReadEvent.line s)) =
      classifierSpec c.use_full_words (strTrim s) := by
  by_cases h1 : strLower (strTrim s) = "yes" <;>
    by_cases h2 : strLower (strTrim s) = "no" <;>
      cases hc : c.use_full_words <;>
        simp [try_read_value, classifierSpec, answer_from_str, is_full_word,
          classOutcome, h, h1, h2, hc] <;>
        split_ifs <;> simp_all [classOutcome]

/-- Claim C1 witness: the classification agreement at the concrete input
`" YeS "` under the baseline configuration. -/
theorem C1_classification_witness :
    strTrim " YeS " ≠ "" ∧
    classOutcome (try_read_value cfgBase (ReadEvent.line " YeS "))
      = classifierSpec cfgBase.use_full_words (strTrim " YeS ") :=
  ⟨by decide, C1_classification cfgBase " YeS " (by decide)⟩

/-- Claim C2: under `Count n` with a script whose `n + 1` reads all yield a
retry, the loop performs exactly `1 + n` prompts, emits the
`Retry count exceeded.  Aborting...` diagnostic last on the error stream,
and returns `false`. -/
theorem C2_bounded_exhaustion (c : Confirm) (n : Nat) (evs : List ReadEvent)
    (hmode : c.retry_mode = TryMode.Count n) (hlen : evs.length = n + 1)
    (hretry : ∀ ev ∈ evs, (get_user_input c ev).1 = Answer.Retry) :
    (∃ errs, ask_loop c evs = (some false, n + 1, errs ++ [Diag.retryExceeded])) ∧
    Diag.retryExceeded.render = "Retry count exceeded.  Aborting..." := by
  refine ⟨?_, rfl⟩
  obtain ⟨errs, hchain⟩ := askSeq_retry_chain c evs hretry 0 []
  refine ⟨errs, ?_⟩
  have hseq : askSeq c (1 + n) evs = (SeqOutcome.retriedAll [], n + 1, errs) := by
    have hfuel : 1 + n = evs.length := by omega
    rw [hfuel]
    have he := hchain
    simp only [Nat.add_zero, List.append_nil] at he
    rw [he]
    simp [askSeq, hlen]
  simp [ask_loop, hmode, hseq]

/-- Claim C2 witness: `Bounded(3)` with four scripted retry-producing reads
yields exactly four prompts, the exceeded diagnostic, and result `false`. -/
theorem C2_bounded_exhaustion_witness :
    cfgBase.retry_mode = TryMode.Count 3 ∧
    evsFour.length = 3 + 1 ∧
    (∀ ev ∈ evsFour, (get_user_input cfgBase ev).1 = Answer.Retry) ∧
    (∃ errs, ask_loop cfgBase evsFour = (some false, 3 + 1, errs ++ [Diag.retryExceeded])) ∧
    Diag.retryExceeded.render = "Retry count exceeded.  Aborting..." :=
  ⟨rfl, by decide, by decide,
    (C2_bounded_exhaustion cfgBase 3 evsFour rfl (by decide) (by decide)).1,
    (C2_bounded_exhaustion cfgBase 3 evsFour rfl (by decide) (by decide)).2⟩

/-- Claim C3: under `Infinite` the loop never emits the retry-exceeded
diagnostic (it never transitions to `Exhausted`), and for every `N ≥ 0`, a
script of `N` retry-producing reads followed by `"yes"` terminates after
exactly `N + 1` prompts with result `true`. -/
theorem C3_unlimited (c : Confirm) (hmode : c.retry_mode = TryMode.Infinite) :
    (∀ evs, Diag.retryExceeded ∉ (ask_loop c evs).2.2) ∧
    (∀ pre, (∀ ev ∈ pre, (get_user_input c ev).1 = Answer.Retry) →
      ∃ errs, ask_loop c (pre ++ [ReadEvent.line "yes"])
        = (some true, pre.length + 1, errs)) := by
  constructor
  · intro evs
    have hno := askSeq_no_exceeded c evs.length evs
    rcases hseq : askSeq c evs.length evs with ⟨out, used, errs⟩
    rw [hseq] at hno
    simp only [] at hno
    cases out <;> simp [ask_loop, hmode, hseq] <;> exact hno
  · intro pre hpre
    obtain ⟨errs, hchain⟩ := askSeq_retry_chain c pre hpre 1 [ReadEvent.line "yes"]
    have h1 : askSeq c 1 [ReadEvent.line "yes"] = (SeqOutcome.answered true, 1, []) := by
      simp [askSeq, get_user_input_line_yes c]
    rw [h1] at hchain
    refine ⟨errs, ?_⟩
    have hlen : (pre ++ [ReadEvent.line "yes"]).length = pre.length + 1 := by simp
    simp only [ask_loop, hmode, hlen, hchain]
    simp [Nat.add_comm]

/-- Claim C3 witness: two retry-producing reads followed by `"yes"` under
the unlimited policy answer `true` after exactly three prompts. -/
theorem C3_unlimited_witness :
    ({ cfgBase with retry_mode := TryMode.Infinite } : Confirm).retry_mode = TryMode.Infinite ∧
    (∀ ev ∈ [ReadEvent.line "a", ReadEvent.line "b"],
      (get_user_input { cfgBase with retry_mode := TryMode.Infinite } ev).1 = Answer.Retry) ∧
    ∃ errs, ask_loop { cfgBase with retry_mode := TryMode.Infinite }
        ([ReadEvent.line "a", ReadEvent.line "b"] ++ [ReadEvent.line "yes"])
      = (some true, [ReadEvent.line "a", ReadEvent.line "b"].length + 1, errs) :=
  ⟨rfl, by decide,
    (C3_unlimited { cfgBase with retry_mode := TryMode.Infinite } rfl).2
      [ReadEvent.line "a", ReadEvent.line "b"] (by decide)⟩

/-- Claim C4: a read whose trim is empty is replaced by the configured
default: with default `Yes` the loop returns `true` immediately after the
single first prompt with no diagnostic, and with no default configured
(default `Retry`) the same read yields `Retry`, triggering a retry. -/
theorem C4_empty_default (c cR : Confirm) (s : String) (rest : List ReadEvent)
    (h : strTrim s = "") (hd : c.default_response = Answer.Yes)
    (hdR : cR.default_response = Answer.Retry) :
    ask_loop c (ReadEvent.line s :: rest) = (some true, 1, []) ∧
    get_user_input cR (ReadEvent.line s) = (Answer.Retry, []) := by
  have hyes : get_user_input c (ReadEvent.line s) = (Answer.Yes, []) := by
    simp [get_user_input, try_read_value, h, hd]
  constructor
  · cases hm : c.retry_mode with
    | Infinite => simp [ask_loop, hm, askSeq, hyes]
    | Count x =>
      simp only [ask_loop, hm]
      rw [Nat.add_comm 1 x]
      simp [askSeq, hyes]
  · simp [get_user_input, try_read_value, h, hdR]

/-- Claim C4 witness: the whitespace-only read `" \n"` with default `Yes`
answers `true` after one prompt, and with no default yields `Retry`. -/
theorem C4_empty_default_witness :
    strTrim " \n" = "" ∧
    ({ cfgBase with default_response := Answer.Yes } : Confirm).default_response = Answer.Yes ∧
    cfgBase.default_response = Answer.Retry ∧
    ask_loop { cfgBase with default_response := Answer.Yes } [ReadEvent.line " \n"]
      = (some true, 1, []) ∧
    get_user_input cfgBase (ReadEvent.line " \n") = (Answer.Retry, []) :=
  ⟨by decide, rfl, rfl,
    (C4_empty_default { cfgBase with default_response := Answer.Yes } cfgBase " \n" []
      (by decide) rfl rfl).1,
    (C4_empty_default { cfgBase with default_response := Answer.Yes } cfgBase " \n" []
      (by decide) rfl rfl).2⟩
